import Mathlib

/-!
Shallow embedding of the computational core of `src/app.py`, a single-file
Streamlit dashboard for crypto options sellers.

Conventions of the embedding:
  * Python floats are modelled as exact rationals (`ℚ`); the float literals
    `0.5`, `1.5`, `0.01` of the source are modelled as the decimals they denote.
  * A Python value that may be `None` is an `Option`.
  * A code path that raises an uncaught exception is `Except.error ()`;
    a normal return is `Except.ok`.
  * An HTTP request issued with `requests.get` is modelled by its outcome:
    either the call raised (network error) or it returned a response with a
    status code and a payload; a payload that is malformed JSON or lacks the
    keys the source indexes unconditionally is `none`.
-/

/-- Greeks record as built by `enrich_chain_with_data` (src/app.py line 81):
five optional decimals obtained with `dict.get`. -/
structure Greeks where
  delta : Option ℚ
  gamma : Option ℚ
  vega : Option ℚ
  theta : Option ℚ
  rho : Option ℚ
  deriving DecidableEq, Repr

/-- One row of the options chain data frame built by `get_options_chain`
(src/app.py lines 52-61) and mutated in place by `enrich_chain_with_data`.
`greeks = none` models the initial empty dict `{}`. -/
structure ChainRow where
  instrument : String
  expiry : String
  strike : ℚ
  type : String
  iv : Option ℚ
  bid : Option ℚ
  ask : Option ℚ
  greeks : Option Greeks
  deriving DecidableEq, Repr

/-- Python truthiness of an optional number: `None` and `0` are falsy
(used by `if row['Ask'] and row['Bid']` and `if spot_price`). -/
def pyTruthy : Option ℚ → Bool
  | none => false
  | some q => q != 0

/-- Premium computation of the selected-instrument block (src/app.py line 136):
`premium = (row['Bid'] + row['Ask']) / 2 if row['Ask'] and row['Bid'] else 0`.
The Python condition is the truthiness of `Ask` and of `Bid`, so an absent
value and a zero value both select the `else 0` branch. -/
def premium (bid ask : Option ℚ) : ℚ :=
  if pyTruthy ask && pyTruthy bid then (bid.getD 0 + ask.getD 0) / 2 else 0

/-- The warning of src/app.py lines 137-138: `if premium == 0:
st.warning("No bid/ask data available for premium.")`. -/
def premiumWarning (bid ask : Option ℚ) : Bool :=
  premium bid ask == 0

/-- One payoff sample of src/app.py lines 142-145, before scaling:
`premium - max(p - strike, 0)` for a call, `premium - max(strike - p, 0)`
for a put (the source's `else` branch covers every non-"Call" type). -/
def payoffUnscaled (optionType : String) (strike prem : ℚ) (p : ℚ) : ℚ :=
  if optionType == "Call" then prem - max (p - strike) 0
  else prem - max (strike - p) 0

/-- The payoff series of src/app.py lines 142-146: the per-price payoff is
computed over the whole price list, then the series is scaled in place by
`payoff *= amount_to_sell`. -/
def payoffSeries (optionType : String) (strike prem contracts : ℚ)
    (prices : List ℚ) : List ℚ :=
  (prices.map (payoffUnscaled optionType strike prem)).map (· * contracts)

/-- Sentinel-aware maximum loss: `none` renders as the string "Unlimited"
(src/app.py line 163). -/
structure RiskSummary where
  maxProfit : ℚ
  breakeven : ℚ
  maxLoss : Option ℚ
  deriving DecidableEq, Repr

/-- Risk metrics of src/app.py lines 159-163:
`max_profit = premium * amount_to_sell`;
`breakeven = strike + premium if option_type == "Call" else strike - premium`;
max loss shown as "Unlimited" for a call and `strike * amount_to_sell`
for a put. -/
def riskSummary (optionType : String) (strike prem contracts : ℚ) :
    RiskSummary :=
  { maxProfit := prem * contracts
    breakeven := if optionType == "Call" then strike + prem else strike - prem
    maxLoss := if optionType == "Call" then none else some (strike * contracts) }

/-- Outcome of one `requests.get` call, as seen by the straight-line code
that consumes it: either the call itself raised (connection error, timeout —
nothing in src/app.py catches these), or it produced a response with a status
code and a payload. A payload is `none` when it is malformed JSON or lacks
the keys the source indexes unconditionally (`['result']`, `['last_price']`,
...), which makes `response.json()[...]` raise. -/
inductive HttpOutcome (α : Type) where
  | netError : HttpOutcome α
  | response (status : Nat) (body : Option α) : HttpOutcome α
  deriving DecidableEq, Repr

/-- src/app.py lines 33-40: `get_spot_price` guards only on
`response.status_code == 200` and returns `None` otherwise; the `requests.get`
call itself and the `response.json()['result']['last_price']` indexing are
unguarded, so a network error or a malformed payload raises. -/
def get_spot_price (o : HttpOutcome ℚ) : Except Unit (Option ℚ) :=
  match o with
  | .netError => .error ()
  | .response status body =>
    if status == 200 then
      match body with
      | none => .error ()
      | some p => .ok (some p)
    else .ok none

/-- One raw instrument record of the Deribit `get_instruments` payload, with
the four fields src/app.py lines 51-56 read (all read unconditionally, so a
record lacking one of them is part of a malformed payload). -/
structure RawInstrument where
  instrument_name : String
  expiration_timestamp : Nat
  strike : ℚ
  option_type : String
  deriving DecidableEq, Repr

/-- Python `str.capitalize()`: first character uppercased, the rest
lowercased (src/app.py line 56 applies it to `option_type`). -/
def pyCapitalize (s : String) : String :=
  match s.data with
  | [] => ""
  | c :: cs => String.mk (c.toUpper :: cs.map Char.toLower)

/-- The per-record mapping of src/app.py lines 51-61. The expiry label is
`datetime.fromtimestamp(ts/1000).strftime('%d%b%y').upper()`; the calendar
formatting is delegated to the `fmt` parameter (Python's `datetime` library,
which no claim inspects). -/
def rawToRow (fmt : Nat → String) (inst : RawInstrument) : ChainRow :=
  { instrument := inst.instrument_name
    expiry := fmt inst.expiration_timestamp
    strike := inst.strike
    type := pyCapitalize inst.option_type
    iv := none
    bid := none
    ask := none
    greeks := none }

/-- src/app.py lines 43-63: `get_options_chain` returns the mapped data frame
on a 200 response and an empty data frame on any other status; as in
`get_spot_price`, a network error or malformed payload raises. -/
def get_options_chain (fmt : Nat → String)
    (o : HttpOutcome (List RawInstrument)) : Except Unit (List ChainRow) :=
  match o with
  | .netError => .error ()
  | .response status body =>
    if status == 200 then
      match body with
      | none => .error ()
      | some instruments => .ok (instruments.map (rawToRow fmt))
    else .ok []

/-- The fields of one entry of the book-summary payload that
src/app.py lines 72-74 read with `dict.get(..., None)`. -/
structure BookSummary where
  mark_iv : Option ℚ
  bid_price : Option ℚ
  ask_price : Option ℚ
  deriving DecidableEq, Repr

/-- The quote-summary half of one loop iteration of `enrich_chain_with_data`
(src/app.py lines 68-74): on a 200 response the source indexes
`response.json()['result'][0]` unconditionally, so a malformed payload or an
empty result list raises (IndexError); on any other status the row's fields
are left untouched; a network error raises. -/
def enrichRowQuote (row : ChainRow) (q : HttpOutcome (List BookSummary)) :
    Except Unit ChainRow :=
  match q with
  | .netError => .error ()
  | .response status body =>
    if status == 200 then
      match body with
      | none => .error ()
      | some [] => .error ()
      | some (summary :: _) =>
        .ok { row with
                iv := summary.mark_iv
                bid := summary.bid_price
                ask := summary.ask_price }
    else .ok row

/-- The Greeks half of one loop iteration of `enrich_chain_with_data`
(src/app.py lines 77-87): on a 200 response all five fields are written from
`response.json()['result']` with `dict.get`; otherwise the row keeps its
previous `greeks` value; a network error or malformed payload raises. -/
def enrichRowGreeks (row : ChainRow) (g : HttpOutcome Greeks) :
    Except Unit ChainRow :=
  match g with
  | .netError => .error ()
  | .response status body =>
    if status == 200 then
      match body with
      | none => .error ()
      | some gd => .ok { row with greeks := some gd }
    else .ok row

/-- src/app.py lines 66-88: the enrichment loop, iterating rows in order and
issuing the quote-summary and Greeks requests for row `i` (the outcomes of the
two requests for row `i` are `oc i`). An exception raised at any row
propagates out of the whole loop — nothing is caught inside it. -/
def enrich_chain_with_data
    (oc : Nat → HttpOutcome (List BookSummary) × HttpOutcome Greeks) :
    Nat → List ChainRow → Except Unit (List ChainRow)
  | _, [] => .ok []
  | i, row :: rows => do
    let row1 ← enrichRowQuote row (oc i).1
    let row2 ← enrichRowGreeks row1 (oc i).2
    let rest ← enrich_chain_with_data oc (i + 1) rows
    return row2 :: rest

/-- Python `str.upper()` (ASCII data in this app). -/
def pyUpper (s : String) : String := String.mk (s.data.map Char.toUpper)

/-- Matcher at a fixed position for the regular-expression subset this
embedding can express: a pattern is a character list in which `.` matches any
character except a newline and every other character matches itself. Patterns
using further regex metacharacters are outside the model. -/
def reMatchAt : List Char → List Char → Bool
  | [], _ => true
  | _ :: _, [] => false
  | pc :: ps, c :: cs =>
    (if pc = '.' then c != '\n' else pc == c) && reMatchAt ps cs

/-- Python `re.search` over the subset of `reMatchAt`: the pattern may match
at any position (unanchored). -/
def reSearch (pat : List Char) : List Char → Bool
  | [] => reMatchAt pat []
  | c :: cs => reMatchAt pat (c :: cs) || reSearch pat cs

/-- `Series.str.contains(pat)` of src/app.py line 101: pandas defaults to
`regex=True` and `case=True`, i.e. a case-sensitive `re.search` of `pat`
against each label. -/
def pdStrContains (s pat : String) : Bool := reSearch pat.data s.data

/-- src/app.py lines 100-101: the expiry filter
`chain_df[chain_df['Expiry'].str.contains(expiry_filter.upper())]` is applied
only when `expiry_filter` is truthy, i.e. non-empty. -/
def applyExpiryFilter (expiryFilter : String) (rows : List ChainRow) :
    List ChainRow :=
  if expiryFilter == "" then rows
  else rows.filter (fun r => pdStrContains r.expiry (pyUpper expiryFilter))

/-- src/app.py line 102: `chain_df[chain_df['Type'] == option_type]`. -/
def applyTypeFilter (optionType : String) (rows : List ChainRow) :
    List ChainRow :=
  rows.filter (fun r => r.type == optionType)

/-- The elementwise test of src/app.py line 104, `chain_df['IV'] >= min_iv`:
on the object-dtype IV column pandas compares each element with the scalar and
yields `False` for a null element, so a row with absent IV is dropped. -/
def ivPasses (minIv : ℚ) : Option ℚ → Bool
  | none => false
  | some v => decide (minIv ≤ v)

/-- src/app.py line 104: `chain_df = chain_df[chain_df['IV'] >= min_iv]`. -/
def applyIVFilter (minIv : ℚ) (rows : List ChainRow) : List ChainRow :=
  rows.filter (fun r => ivPasses minIv r.iv)

/-- The filter stages of src/app.py lines 100-104 composed in source order.
Enrichment (line 103) runs between the type filter and the IV filter but only
writes the `iv`, `bid`, `ask`, `greeks` fields; here rows carry their
post-enrichment field values, so it is the identity at this stage. -/
def chainFilter (optionType expiryFilter : String) (minIv : ℚ)
    (rows : List ChainRow) : List ChainRow :=
  applyIVFilter minIv (applyTypeFilter optionType (applyExpiryFilter expiryFilter rows))

/-- Insertion of a row into a strike-sorted list, ascending. -/
def insertByStrike (r : ChainRow) : List ChainRow → List ChainRow
  | [] => [r]
  | x :: xs =>
    if r.strike ≤ x.strike then r :: x :: xs else x :: insertByStrike r xs

/-- src/app.py line 105: `chain_df.sort_values(by='Strike')`, modelled as an
insertion sort ascending by strike. The source's pandas call uses numpy's
default quicksort (introsort), which the pandas documentation marks as not
stable; this model fixes a tie order, so properties that depend on the tie
order of the source's sort cannot be read off this definition. -/
def sortValuesByStrike : List ChainRow → List ChainRow
  | [] => []
  | r :: rs => insertByStrike r (sortValuesByStrike rs)

/-- src/app.py line 132: `st.selectbox(..., chain_df['Instrument'].tolist())`
yields the first option by default and `None` when the option list is empty. -/
def selectInstrument (rows : List ChainRow) : Option String :=
  (rows.map (fun r => r.instrument)).head?

/-- src/app.py line 133: the payoff block runs only under
`if selected_instrument:` — Python truthiness of the optional string. -/
def payoffBlockRuns (rows : List ChainRow) : Bool :=
  match selectInstrument rows with
  | none => false
  | some s => s != ""

/-- Python `int()` applied to a (rational-modelled) float: truncation toward
zero. -/
def pyInt (q : ℚ) : Int := if 0 ≤ q then ⌊q⌋ else ⌈q⌉

/-- Element count of Python `range(a, b, s)` for a positive step `s`:
`max 0 (ceil ((b - a) / s))`, computed as a natural division. -/
def rangeCount (a b s : Int) : Nat := (b - a + s - 1).toNat / s.toNat

/-- Python `range(a, b, s)`: raises `ValueError` when the step is zero,
otherwise yields `a, a + s, a + 2s, ...` strictly before `b` (for `s > 0`;
for `s < 0` it counts down strictly past `b`). -/
def pyRange (a b s : Int) : Except Unit (List Int) :=
  if s = 0 then .error ()
  else if 0 < s then
    .ok ((List.range (rangeCount a b s)).map (fun (i : Nat) => a + (i : Int) * s))
  else
    .ok ((List.range (rangeCount b a (-s))).map (fun (i : Nat) => a - (i : Int) * (-s)))

/-- src/app.py line 141: `prices = pd.Series(range(int(spot_price * 0.5),
int(spot_price * 1.5), int(spot_price * 0.01)))`. -/
def pricesGrid (spot : ℚ) : Except Unit (List Int) :=
  pyRange (pyInt (spot * (1 / 2))) (pyInt (spot * (3 / 2)))
    (pyInt (spot * (1 / 100)))

/-- Restriction of a quote-summary outcome to the failure modes the source
handles locally: not a network error, and on a 200 status the payload is
well-formed with a non-empty result list (otherwise the source raises). -/
def quoteHandled : HttpOutcome (List BookSummary) → Bool
  | .netError => false
  | .response status body =>
    if status == 200 then
      match body with
      | some (_ :: _) => true
      | _ => false
    else true

/-- Restriction of a Greeks outcome to the failure modes the source handles
locally (as `quoteHandled`, with `['result']` indexed directly). -/
def greeksHandled : HttpOutcome Greeks → Bool
  | .netError => false
  | .response status body =>
    if status == 200 then body.isSome else true

/-- Total version of `enrichRowQuote` on handled outcomes: an unhandled
outcome is mapped to the untouched row (it coincides with `enrichRowQuote`
only under `quoteHandled`). -/
def enrichRowQuotePure (row : ChainRow) (q : HttpOutcome (List BookSummary)) :
    ChainRow :=
  match q with
  | .netError => row
  | .response status body =>
    if status == 200 then
      match body with
      | some (summary :: _) =>
        { row with
            iv := summary.mark_iv
            bid := summary.bid_price
            ask := summary.ask_price }
      | _ => row
    else row

/-- Total version of `enrichRowGreeks` on handled outcomes. -/
def enrichRowGreeksPure (row : ChainRow) (g : HttpOutcome Greeks) : ChainRow :=
  match g with
  | .netError => row
  | .response status body =>
    if status == 200 then
      match body with
      | some gd => { row with greeks := some gd }
      | none => row
    else row

/-- One full loop iteration on handled outcomes. -/
def enrichRowPure (row : ChainRow) (q : HttpOutcome (List BookSummary))
    (g : HttpOutcome Greeks) : ChainRow :=
  enrichRowGreeksPure (enrichRowQuotePure row q) g

/-- The enrichment loop on handled outcomes: a plain index-wise map. -/
def enrichPure
    (oc : Nat → HttpOutcome (List BookSummary) × HttpOutcome Greeks) :
    Nat → List ChainRow → List ChainRow
  | _, [] => []
  | i, row :: rows =>
    enrichRowPure row (oc i).1 (oc i).2 :: enrichPure oc (i + 1) rows

/-- A concrete chain row used by witnesses and counterexamples. -/
def sampleRow : ChainRow :=
  { instrument := "BTC-27SEP24-60000-C"
    expiry := "27SEP24"
    strike := 60000
    type := "Call"
    iv := some 60
    bid := none
    ask := none
    greeks := none }

/-- A second concrete chain row. -/
def sampleRow2 : ChainRow :=
  { instrument := "BTC-27SEP24-65000-C"
    expiry := "27SEP24"
    strike := 65000
    type := "Call"
    iv := none
    bid := none
    ask := none
    greeks := none }

/-- Python `str.lower()` (ASCII data in this app). -/
def pyLower (s : String) : String := String.mk (s.data.map Char.toLower)

/-- Plain unanchored substring occurrence on character lists. -/
def subOccurs (sub : List Char) : List Char → Bool
  | [] => sub.isEmpty
  | c :: cs => sub.isPrefixOf (c :: cs) || subOccurs sub cs

/-- The row-retention predicate of the C6 claim taken at the spec's words:
type equality, case-insensitive unanchored SUBSTRING match of the expiry
filter (when non-empty), and IV present and ≥ the threshold. Defined for
comparison with `chainFilter`, which is translated from the source. -/
def filterSpecC6 (optionType expiryFilter : String) (minIv : ℚ)
    (rows : List ChainRow) : List ChainRow :=
  rows.filter fun r =>
    r.type == optionType &&
    (expiryFilter == "" ||
      subOccurs (pyLower expiryFilter).data (pyLower r.expiry).data) &&
    ivPasses minIv r.iv

/-- The row-retention predicate actually implemented by lines 100-104: type
equality, unanchored REGEX search of the uppercased filter against the expiry
label (when the filter is non-empty), and IV present and ≥ the threshold. -/
def keepRow (optionType expiryFilter : String) (minIv : ℚ) (r : ChainRow) :
    Bool :=
  r.type == optionType &&
  (expiryFilter == "" || pdStrContains r.expiry (pyUpper expiryFilter)) &&
  ivPasses minIv r.iv

/-! Helper lemmas (shared; not claim theorems). -/

theorem chainFilter_eq_filter (t ef : String) (m : ℚ) (rows : List ChainRow) :
    chainFilter t ef m rows = rows.filter (keepRow t ef m) := by
  by_cases hef : (ef == "") = true
  · unfold chainFilter applyExpiryFilter applyTypeFilter applyIVFilter
    rw [if_pos hef, List.filter_filter]
    exact List.filter_congr fun r _ => by
      simp [keepRow, hef, Bool.and_comm]
  · unfold chainFilter applyExpiryFilter applyTypeFilter applyIVFilter
    rw [if_neg hef, List.filter_filter, List.filter_filter]
    exact List.filter_congr fun r _ => by
      simp [keepRow, hef, Bool.and_comm, Bool.and_left_comm, Bool.and_assoc]

theorem enrichRowQuote_handled (row : ChainRow)
    (q : HttpOutcome (List BookSummary)) (h : quoteHandled q = true) :
    enrichRowQuote row q = Except.ok (enrichRowQuotePure row q) := by
  cases q with
  | netError => simp [quoteHandled] at h
  | response st body =>
    by_cases hst : (st == 200) = true
    · rcases body with _ | l
      · simp [quoteHandled, hst] at h
      · rcases l with _ | ⟨s, rest⟩
        · simp [quoteHandled, hst] at h
        · simp [enrichRowQuote, enrichRowQuotePure, hst]
    · simp [enrichRowQuote, enrichRowQuotePure, hst]

theorem enrichRowGreeks_handled (row : ChainRow) (g : HttpOutcome Greeks)
    (h : greeksHandled g = true) :
    enrichRowGreeks row g = Except.ok (enrichRowGreeksPure row g) := by
  cases g with
  | netError => simp [greeksHandled] at h
  | response st body =>
    by_cases hst : (st == 200) = true
    · rcases body with _ | gd
      · simp [greeksHandled, hst] at h
      · simp [enrichRowGreeks, enrichRowGreeksPure, hst]
    · simp [enrichRowGreeks, enrichRowGreeksPure, hst]

theorem enrich_handled
    (oc : Nat → HttpOutcome (List BookSummary) × HttpOutcome Greeks)
    (rows : List ChainRow) (k : Nat)
    (h : ∀ i, quoteHandled (oc i).1 = true ∧ greeksHandled (oc i).2 = true) :
    enrich_chain_with_data oc k rows = Except.ok (enrichPure oc k rows) := by
  induction rows generalizing k with
  | nil => rfl
  | cons row rows ih =>
    simp [enrich_chain_with_data, enrichRowQuote_handled row (oc k).1 (h k).1,
      enrichRowGreeks_handled _ (oc k).2 (h k).2, ih (k + 1), enrichPure,
      enrichRowPure]
    rfl

theorem enrichPure_get?
    (oc : Nat → HttpOutcome (List BookSummary) × HttpOutcome Greeks)
    (rows : List ChainRow) (k i : Nat) :
    (enrichPure oc k rows)[i]? =
      (rows[i]?).map
        (fun r => enrichRowPure r (oc (k + i)).1 (oc (k + i)).2) := by
  induction rows generalizing k i with
  | nil => simp [enrichPure]
  | cons row rows ih =>
    cases i with
    | zero => simp [enrichPure]
    | succ j =>
      have hk : k + 1 + j = k + (j + 1) := by omega
      rw [← hk]
      simp [enrichPure, ih (k + 1) j]

theorem enrichRowQuotePure_fields (r : ChainRow)
    (q : HttpOutcome (List BookSummary)) :
    (enrichRowQuotePure r q).instrument = r.instrument ∧
      (enrichRowQuotePure r q).expiry = r.expiry ∧
      (enrichRowQuotePure r q).strike = r.strike ∧
      (enrichRowQuotePure r q).type = r.type ∧
      (enrichRowQuotePure r q).greeks = r.greeks := by
  cases q with
  | netError => exact ⟨rfl, rfl, rfl, rfl, rfl⟩
  | response st body =>
    by_cases hst : (st == 200) = true
    · rcases body with _ | l
      · simp [enrichRowQuotePure, hst]
      · rcases l with _ | ⟨s, rest⟩ <;> simp [enrichRowQuotePure, hst]
    · simp [enrichRowQuotePure, hst]

theorem enrichRowGreeksPure_fields (r : ChainRow) (g : HttpOutcome Greeks) :
    (enrichRowGreeksPure r g).instrument = r.instrument ∧
      (enrichRowGreeksPure r g).expiry = r.expiry ∧
      (enrichRowGreeksPure r g).strike = r.strike ∧
      (enrichRowGreeksPure r g).type = r.type ∧
      (enrichRowGreeksPure r g).iv = r.iv ∧
      (enrichRowGreeksPure r g).bid = r.bid ∧
      (enrichRowGreeksPure r g).ask = r.ask := by
  cases g with
  | netError => exact ⟨rfl, rfl, rfl, rfl, rfl, rfl, rfl⟩
  | response st body =>
    by_cases hst : (st == 200) = true
    · rcases body with _ | gd <;> simp [enrichRowGreeksPure, hst]
    · simp [enrichRowGreeksPure, hst]

theorem enrichPure_length
    (oc : Nat → HttpOutcome (List BookSummary) × HttpOutcome Greeks)
    (rows : List ChainRow) (k : Nat) :
    (enrichPure oc k rows).length = rows.length := by
  induction rows generalizing k with
  | nil => rfl
  | cons row rows ih => simp [enrichPure, ih (k + 1)]

theorem payoffUnscaled_call (k pr p : ℚ) :
    payoffUnscaled "Call" k pr p = pr - max (p - k) 0 := rfl

theorem payoffUnscaled_put (k pr p : ℚ) :
    payoffUnscaled "Put" k pr p = pr - max (k - p) 0 := rfl

/-! Claim theorems. -/

/-- C1, counterexample: with bid present and equal to 0 and ask present and
equal to 10, the code computes premium 0, not the midpoint (0 + 10) / 2 = 5,
because the Python condition `row['Ask'] and row['Bid']` tests truthiness and
0 is falsy. -/
theorem c1_counterexample :
    premium (some 0) (some 10) = 0 ∧ ((0 : ℚ) + 10) / 2 = 5 ∧
      premium (some 0) (some 10) ≠ ((0 : ℚ) + 10) / 2 := by
  norm_num [premium, pyTruthy]

/-- C1, amended: for every quote in which both bid and ask are present AND
nonzero, the computed premium equals (bid + ask) / 2; if either bid or ask is
absent (and likewise when either is zero), the premium is defined as 0 and the
caller-visible warning flag is set — the computation is total, no exception. -/
theorem c1_amended :
    (∀ b a : ℚ, b ≠ 0 → a ≠ 0 → premium (some b) (some a) = (b + a) / 2) ∧
    (∀ bid ask : Option ℚ, bid = none ∨ ask = none →
      premium bid ask = 0 ∧ premiumWarning bid ask = true) := by
  constructor
  · intro b a hb ha
    simp [premium, pyTruthy, hb, ha]
  · intro bid ask h
    have hp : premium bid ask = 0 := by
      rcases h with h | h <;> subst h <;> simp [premium, pyTruthy]
    exact ⟨hp, by simp [premiumWarning, hp]⟩

/-- C1, witness for `c1_amended` at bid 400, ask 600 and at an absent bid. -/
theorem c1_witness :
    premium (some 400) (some 600) = ((400 : ℚ) + 600) / 2 ∧
      (premium none (some 600) = 0 ∧ premiumWarning none (some 600) = true) :=
  ⟨c1_amended.1 400 600 (by norm_num) (by norm_num),
    c1_amended.2 none (some 600) (Or.inl rfl)⟩

/-- C2: for every sample price p the short-call payoff is
(premium − max(p − strike, 0)) × contracts and the short-put payoff is
(premium − max(strike − p, 0)) × contracts; concretely, for strike 60000,
premium 500, Call, 1 contract: profit −500 at price 61000 and profit
premium × contracts at the strike. -/
theorem c2_payoff :
    (∀ (k pr c : ℚ) (ps : List ℚ),
      payoffSeries "Call" k pr c ps = ps.map fun p => (pr - max (p - k) 0) * c) ∧
    (∀ (k pr c : ℚ) (ps : List ℚ),
      payoffSeries "Put" k pr c ps = ps.map fun p => (pr - max (k - p) 0) * c) ∧
    payoffSeries "Call" 60000 500 1 [61000] = [-500] ∧
    payoffSeries "Call" 60000 500 1 [60000] = [500 * 1] := by
  refine ⟨?_, ?_, ?_, ?_⟩
  · intro k pr c ps
    simp [payoffSeries, payoffUnscaled_call, List.map_map]
  · intro k pr c ps
    simp [payoffSeries, payoffUnscaled_put, List.map_map]
  · simp [payoffSeries, payoffUnscaled_call]
    norm_num
  · simp [payoffSeries, payoffUnscaled_call]

/-- C3: for every strike, premium and contract count the risk summary has
max profit = premium × contracts, breakeven = strike ± premium (call/put),
max loss = the "Unlimited" sentinel (call) or strike × contracts (put);
concretely Put/3000/80/2 gives 160, 2920 and 6000. -/
theorem c3_risk :
    (∀ k pr c : ℚ, riskSummary "Call" k pr c = ⟨pr * c, k + pr, none⟩) ∧
    (∀ k pr c : ℚ, riskSummary "Put" k pr c = ⟨pr * c, k - pr, some (k * c)⟩) ∧
    riskSummary "Put" 3000 80 2 = ⟨160, 2920, some 6000⟩ := by
  refine ⟨fun k pr c => rfl, fun k pr c => rfl, ?_⟩
  norm_num [riskSummary]
  exact ⟨by decide, fun h => absurd h (by decide)⟩

/-- C4, counterexample: on a network error (the `requests.get` call raising),
`get_spot_price` and `get_options_chain` do not return an absent/empty result
— the exception propagates to the caller, because nothing in either function
catches it. -/
theorem c4_counterexample :
    get_spot_price HttpOutcome.netError = Except.error () ∧
      get_options_chain (fun _ => "") HttpOutcome.netError =
        Except.error () ∧
      get_spot_price (HttpOutcome.response 200 none) = Except.error () ∧
      get_options_chain (fun _ => "") (HttpOutcome.response 200 none) =
        Except.error () :=
  ⟨rfl, rfl, rfl, rfl⟩

/-- C4, amended: only a response with a non-200 status is handled locally —
`get_spot_price` then returns absent and `get_options_chain` returns the empty
sequence, without a fault; a network error or a malformed 200 payload instead
raises out of both functions. -/
theorem c4_amended (status : Nat) (bodyS : Option ℚ)
    (bodyC : Option (List RawInstrument)) (fmt : Nat → String)
    (h : status ≠ 200) :
    get_spot_price (HttpOutcome.response status bodyS) = Except.ok none ∧
      get_options_chain fmt (HttpOutcome.response status bodyC) =
        Except.ok [] ∧
      get_spot_price HttpOutcome.netError = Except.error () ∧
      get_options_chain fmt HttpOutcome.netError = Except.error () ∧
      get_spot_price (HttpOutcome.response 200 none) = Except.error () ∧
      get_options_chain fmt (HttpOutcome.response 200 none) =
        Except.error () := by
  have hb : (status == 200) = false := by simpa using h
  exact ⟨by simp [get_spot_price, hb], by simp [get_options_chain, hb],
    rfl, rfl, rfl, rfl⟩

/-- C4, witness for `c4_amended` at status 500. -/
theorem c4_witness :
    get_spot_price (HttpOutcome.response 500 none) = Except.ok none ∧
      get_options_chain (fun _ => "") (HttpOutcome.response 500 none) =
        Except.ok [] ∧
      get_spot_price HttpOutcome.netError = Except.error () ∧
      get_options_chain (fun _ => "") HttpOutcome.netError =
        Except.error () ∧
      get_spot_price (HttpOutcome.response 200 none) = Except.error () ∧
      get_options_chain (fun _ => "") (HttpOutcome.response 200 none) =
        Except.error () :=
  c4_amended 500 none none (fun _ => "") (by decide)

/-- C5, counterexample: with two rows and a network error on the quote-summary
request of the first instrument, the whole enrichment pass raises — the second
row is not enriched and no row set is returned at all, contrary to the claim
that a failure for one instrument affects only that row. -/
theorem c5_counterexample :
    enrich_chain_with_data
        (fun _ => (HttpOutcome.netError,
          HttpOutcome.response 404 (none : Option Greeks))) 0
        [sampleRow, sampleRow2] = Except.error () :=
  rfl

/-- C5, amended: for every chain and every per-row pair of request outcomes
drawn from the failure modes the loop handles (non-200 statuses, and
well-formed 200 payloads, whose fields may still be absent), enrichment is
best-effort per row: it returns a row list of the same length, row i is a
function of row i and outcome i alone, identity fields are never touched, and
a non-200 outcome leaves the corresponding fields of that row unchanged.
A network error or malformed/empty 200 payload, however, aborts the whole
pass (`c5_counterexample`). -/
theorem c5_amended
    (oc : Nat → HttpOutcome (List BookSummary) × HttpOutcome Greeks)
    (rows : List ChainRow)
    (h : ∀ i, quoteHandled (oc i).1 = true ∧ greeksHandled (oc i).2 = true) :
    enrich_chain_with_data oc 0 rows = Except.ok (enrichPure oc 0 rows) ∧
      (enrichPure oc 0 rows).length = rows.length ∧
      (∀ i : Nat, (enrichPure oc 0 rows)[i]? =
        (rows[i]?).map (fun r => enrichRowPure r (oc i).1 (oc i).2)) ∧
      (∀ (r : ChainRow) (q : HttpOutcome (List BookSummary))
        (g : HttpOutcome Greeks),
        (enrichRowPure r q g).instrument = r.instrument ∧
          (enrichRowPure r q g).expiry = r.expiry ∧
          (enrichRowPure r q g).strike = r.strike ∧
          (enrichRowPure r q g).type = r.type) ∧
      (∀ (r : ChainRow) (st : Nat) (body : Option (List BookSummary))
        (g : HttpOutcome Greeks), st ≠ 200 →
        enrichRowPure r (HttpOutcome.response st body) g =
          enrichRowGreeksPure r g) ∧
      (∀ (r : ChainRow) (q : HttpOutcome (List BookSummary)) (st : Nat)
        (body : Option Greeks), st ≠ 200 →
        enrichRowPure r q (HttpOutcome.response st body) =
          enrichRowQuotePure r q) := by
  refine ⟨enrich_handled oc rows 0 h, enrichPure_length oc rows 0,
    fun i => by simpa using enrichPure_get? oc rows 0 i, ?_, ?_, ?_⟩
  · intro r q g
    have hq := enrichRowQuotePure_fields r q
    have hg := enrichRowGreeksPure_fields (enrichRowQuotePure r q) g
    exact ⟨hg.1.trans hq.1, hg.2.1.trans hq.2.1, hg.2.2.1.trans hq.2.2.1,
      hg.2.2.2.1.trans hq.2.2.2.1⟩
  · intro r st body g hst
    have hb : (st == 200) = false := by simpa using hst
    simp [enrichRowPure, enrichRowQuotePure, hb]
  · intro r q st body hst
    have hb : (st == 200) = false := by simpa using hst
    simp [enrichRowPure, enrichRowGreeksPure, hb]

/-- C5, witness for `c5_amended`: one row, both requests answered with a 404. -/
theorem c5_witness :
    enrich_chain_with_data
        (fun _ => (HttpOutcome.response 404 (none : Option (List BookSummary)),
          HttpOutcome.response 404 (none : Option Greeks))) 0 [sampleRow] =
      Except.ok (enrichPure
        (fun _ => (HttpOutcome.response 404 (none : Option (List BookSummary)),
          HttpOutcome.response 404 (none : Option Greeks))) 0 [sampleRow]) :=
  (c5_amended
    (fun _ => (HttpOutcome.response 404 (none : Option (List BookSummary)),
      HttpOutcome.response 404 (none : Option Greeks)))
    [sampleRow] (fun _ => ⟨rfl, rfl⟩)).1

/-- C10: when bid and ask are both present but either equals 0, the premium is
0 and the warning is shown — the same outcome as when a value is absent. -/
theorem c10_zero_quote (b a : ℚ) (h : b = 0 ∨ a = 0) :
    premium (some b) (some a) = 0 ∧
      premiumWarning (some b) (some a) = true ∧
      premium (some b) (some a) = premium none none ∧
      premiumWarning (some b) (some a) = premiumWarning none none := by
  have hp : premium (some b) (some a) = 0 := by
    rcases h with h | h <;> subst h <;> simp [premium, pyTruthy]
  refine ⟨hp, by simp [premiumWarning, hp], ?_, ?_⟩
  · rw [hp]; rfl
  · simp [premiumWarning, hp]; rfl

/-- C10, witness for `c10_zero_quote` at bid 0, ask 7. -/
theorem c10_witness :
    premium (some 0) (some 7) = 0 ∧
      premiumWarning (some 0) (some 7) = true ∧
      premium (some 0) (some 7) = premium none none ∧
      premiumWarning (some 0) (some 7) = premiumWarning none none :=
  c10_zero_quote 0 7 (Or.inl rfl)

/-- C6, counterexample: with expiry filter "2.SEP24" (a valid regex, not a
substring of "27SEP24") the code retains the row — pandas `str.contains`
defaults to regex matching, where `.` matches any character — while the
claim's case-insensitive substring reading retains nothing. -/
theorem c6_counterexample :
    chainFilter "Call" "2.SEP24" 50 [sampleRow] = [sampleRow] ∧
      filterSpecC6 "Call" "2.SEP24" 50 [sampleRow] = [] ∧
      chainFilter "Call" "2.SEP24" 50 [sampleRow] ≠
        filterSpecC6 "Call" "2.SEP24" 50 [sampleRow] := by
  refine ⟨by decide, by decide, by decide⟩

/-- C6, amended: filtering retains exactly the rows whose option type equals
the requested type, whose expiry label matches the uppercased expiry filter as
an unanchored regular-expression search when the filter is non-empty (for
filter strings without regex metacharacters this is a plain substring match,
and the chain's labels are produced uppercase), and whose IV is present and
≥ min_iv. -/
theorem c6_amended (t ef : String) (m : ℚ) (rows : List ChainRow) :
    chainFilter t ef m rows =
      rows.filter fun r =>
        r.type == t &&
        (ef == "" || pdStrContains r.expiry (pyUpper ef)) &&
        ivPasses m r.iv :=
  chainFilter_eq_filter t ef m rows

/-- C9: if IV is absent for every row the filter's output is empty, and
whenever the filter's output is empty (in particular when the IV threshold
removes every row) the downstream payoff block does not run — the selectbox
over an empty instrument list yields `None`. Every function involved is
total: no error is raised. -/
theorem c9_empty_chain (rows : List ChainRow) (t ef : String) (m : ℚ) :
    ((∀ r ∈ rows, r.iv = none) → chainFilter t ef m rows = []) ∧
      (chainFilter t ef m rows = [] →
        payoffBlockRuns (sortValuesByStrike (chainFilter t ef m rows)) =
          false) := by
  constructor
  · intro h
    rw [chainFilter_eq_filter]
    refine List.filter_eq_nil_iff.mpr fun r hr => ?_
    simp [keepRow, h r hr, ivPasses]
  · intro h
    rw [h]
    rfl

/-- C9, witness for `c9_empty_chain`: one row with absent IV. -/
theorem c9_witness :
    chainFilter "Call" "" 50 [sampleRow2] = [] ∧
      payoffBlockRuns
        (sortValuesByStrike (chainFilter "Call" "" 50 [sampleRow2])) =
        false := by
  have h := c9_empty_chain [sampleRow2] "Call" "" 50
  have he : chainFilter "Call" "" 50 [sampleRow2] = [] :=
    h.1 fun r hr => by rcases List.mem_singleton.mp hr with rfl; rfl
  exact ⟨he, h.2 he⟩

/-- Shared helper: Python `int()` on a nonnegative value is the floor. -/
theorem pyInt_nonneg (q : ℚ) (h : 0 ≤ q) : pyInt q = ⌊q⌋ := by
  simp [pyInt, h]

/-- C8, counterexample: at spot 50 (and likewise at spot 0) the step
`int(spot_price * 0.01)` truncates to 0 and `range` raises ValueError — the
code raises on a degenerate spot instead of failing validation with a
well-defined degenerate result. -/
theorem c8_counterexample :
    pricesGrid 50 = Except.error () ∧ pricesGrid 0 = Except.error () := by
  constructor
  · have h1 : pyInt ((50 : ℚ) * (1 / 100)) = 0 := by norm_num [pyInt]
    have h2 : pyInt ((50 : ℚ) * (1 / 2)) = 25 := by norm_num [pyInt]
    have h3 : pyInt ((50 : ℚ) * (3 / 2)) = 75 := by norm_num [pyInt]
    unfold pricesGrid
    rw [h1, h2, h3]
    rfl
  · have h1 : pyInt ((0 : ℚ) * (1 / 100)) = 0 := by norm_num [pyInt]
    have h2 : pyInt ((0 : ℚ) * (1 / 2)) = 0 := by norm_num [pyInt]
    have h3 : pyInt ((0 : ℚ) * (3 / 2)) = 0 := by norm_num [pyInt]
    unfold pricesGrid
    rw [h1, h2, h3]
    rfl

/-- C8, amended: for spot ≥ 100 the sample grid is well-defined: it starts at
int(spot·0.5), every point lies in [int(spot·0.5), int(spot·1.5)), successive
points differ by the step int(spot·0.01), and there are at least 3 points
(so at least one interior step). For 0 < spot < 100 (and spot = 0) the step
truncates to 0 and `range` raises (`c8_counterexample`): the code has no
input validation for degenerate spot. -/
theorem c8_amended (spot : ℚ) (h : 100 ≤ spot) :
    ∃ l : List Int, pricesGrid spot = Except.ok l ∧
      3 ≤ l.length ∧
      l[0]? = some (pyInt (spot * (1 / 2))) ∧
      (∀ x ∈ l, pyInt (spot * (1 / 2)) ≤ x ∧ x < pyInt (spot * (3 / 2))) ∧
      (∀ j : Nat, j + 1 < l.length →
        l[j + 1]? = (l[j]?).map (fun x => x + pyInt (spot * (1 / 100)))) := by
  have hsp : (0 : ℚ) ≤ spot := by linarith
  have e1 : pyInt (spot * (1 / 2)) = ⌊spot * (1 / 2)⌋ :=
    pyInt_nonneg _ (mul_nonneg hsp (by norm_num))
  have e2 : pyInt (spot * (3 / 2)) = ⌊spot * (3 / 2)⌋ :=
    pyInt_nonneg _ (mul_nonneg hsp (by norm_num))
  have e3 : pyInt (spot * (1 / 100)) = ⌊spot * (1 / 100)⌋ :=
    pyInt_nonneg _ (mul_nonneg hsp (by norm_num))
  set A := ⌊spot * (1 / 2)⌋ with hA
  set B := ⌊spot * (3 / 2)⌋ with hB
  set S := ⌊spot * (1 / 100)⌋ with hS
  have hS1 : 1 ≤ S := by
    rw [hS, Int.le_floor]
    push_cast
    linarith
  have hAle : (A : ℚ) ≤ spot * (1 / 2) := by rw [hA]; exact Int.floor_le _
  have hBgt : spot * (3 / 2) - 1 < (B : ℚ) := by
    rw [hB]; exact Int.sub_one_lt_floor _
  have hSle : (S : ℚ) ≤ spot * (1 / 100) := by rw [hS]; exact Int.floor_le _
  have hBA : 2 * S + 2 < B - A := by
    have hq : ((2 * S + 2 : Int) : ℚ) < ((B - A : Int) : ℚ) := by
      push_cast
      linarith
    exact_mod_cast hq
  have hS0 : ¬(S = 0) := by omega
  have hSpos : 0 < S := by omega
  have hnn : (0 : Int) ≤ B - A + S - 1 := by omega
  have hcount : 3 ≤ rangeCount A B S := by
    unfold rangeCount
    rw [Nat.le_div_iff_mul_le (by omega : 0 < S.toNat)]
    omega
  have hgrid : pricesGrid spot =
      Except.ok ((List.range (rangeCount A B S)).map
        (fun (i : Nat) => A + (i : Int) * S)) := by
    unfold pricesGrid
    rw [e1, e2, e3]
    unfold pyRange
    rw [if_neg hS0, if_pos hSpos]
  refine ⟨_, hgrid, ?_, ?_, ?_, ?_⟩
  · simpa using hcount
  · rw [List.getElem?_map, List.getElem?_range (by omega : 0 < rangeCount A B S)]
    rw [e1]
    simp
  · intro x hx
    rw [List.mem_map] at hx
    obtain ⟨i, hi, rfl⟩ := hx
    rw [List.mem_range] at hi
    constructor
    · have hnn2 : (0 : Int) ≤ (i : Int) * S :=
        mul_nonneg (by positivity) (by omega)
      linarith
    · have hc := Nat.div_mul_le_self (B - A + S - 1).toNat S.toNat
      have hcInt : ((rangeCount A B S : Nat) : Int) * ((S.toNat : Nat) : Int) ≤
          (((B - A + S - 1).toNat : Nat) : Int) := by
        unfold rangeCount
        exact_mod_cast hc
      rw [Int.toNat_of_nonneg (by omega : (0 : Int) ≤ S),
        Int.toNat_of_nonneg hnn] at hcInt
      have hi1 : (i : Int) + 1 ≤ (rangeCount A B S : Int) := by exact_mod_cast hi
      have hmul : ((i : Int) + 1) * S ≤ (rangeCount A B S : Int) * S :=
        mul_le_mul_of_nonneg_right hi1 (by omega)
      have hexp : ((i : Int) + 1) * S = (i : Int) * S + S := by ring
      rw [hexp] at hmul
      linarith
  · intro j hj
    have hj1 : j + 1 < rangeCount A B S := by simpa using hj
    have hj0 : j < rangeCount A B S := by omega
    rw [List.getElem?_map, List.getElem?_map,
      List.getElem?_range hj1, List.getElem?_range hj0]
    rw [e3]
    simp
    ring

/-- C8, witness for `c8_amended` at spot 60000. -/
theorem c8_witness :
    ∃ l : List Int, pricesGrid 60000 = Except.ok l ∧
      3 ≤ l.length ∧
      l[0]? = some (pyInt ((60000 : ℚ) * (1 / 2))) ∧
      (∀ x ∈ l, pyInt ((60000 : ℚ) * (1 / 2)) ≤ x ∧
        x < pyInt ((60000 : ℚ) * (3 / 2))) ∧
      (∀ j : Nat, j + 1 < l.length →
        l[j + 1]? = (l[j]?).map (fun x => x + pyInt ((60000 : ℚ) * (1 / 100)))) :=
  c8_amended 60000 (by norm_num)
